import Mathlib

/-!
Verification of the model-selection and control-flow logic of
`.github/scripts/gemini_issue_triage.py`.

The script's logical core is `discover_model`: it fetches a list of model
descriptors, filters them to generation-capable named models, and picks one
by substring priority (gemini-2.5-flash, then flash, then pro), falling back
to a hardcoded constant.  `main` reads credentials from the environment,
calls the generation endpoint and posts a GitHub comment, with fixed exit
codes on each failure path.

The network is modelled by an explicit outcome type: a successful fetch
carries the decoded descriptor list, a failed fetch carries the exception
message (Python catches every `Exception` raised inside the `try` block of
`discover_model`, so a single failure constructor covers network errors,
non-success statuses and malformed bodies alike).
-/

namespace GeminiTriage

/-- Python's `needle in hay` on strings: substring containment,
decided on the underlying character lists. -/
def substrB (needle hay : String) : Bool :=
  decide (needle.data <:+: hay.data)

/-- `PREFERRED_MODEL = "models/gemini-2.5-flash"` — the hardcoded fallback. -/
def PREFERRED_MODEL : String := "models/gemini-2.5-flash"

/-- One JSON model descriptor as the script reads it: `m.get("name")`
(`none` when absent or null) and `m.get("supportedGenerationMethods")`
(`none` when absent or null). -/
structure ModelDescriptor where
  name : Option String
  supportedGenerationMethods : Option (List String)

/-- `supports_generate(model)`: `methods = model.get("supportedGenerationMethods", []) or []`
(absent or `None` collapses to the empty list), then
`any("generateContent" in m for m in methods)`. -/
def supports_generate (model : ModelDescriptor) : Bool :=
  let methods := model.supportedGenerationMethods.getD []
  methods.any (fun m => substrB "generateContent" m)

/-- `names = [m.get("name") for m in models if m.get("name") and supports_generate(m)]`:
a name passes when it is present, truthy (non-empty), and the descriptor
supports generation. -/
def candidateNames (models : List ModelDescriptor) : List String :=
  models.filterMap (fun m =>
    match m.name with
    | some n => if !n.isEmpty && supports_generate m then some n else none
    | none => none)

/-- The body of the `try` block after a successful fetch and decode:
build `flash_25`, `flash_any`, `pro_any` by substring filters over `names`
and return the head of the first non-empty one, then `names[0]`, then the
fallback constant. -/
def discover_model_success (models : List ModelDescriptor) : String :=
  match (candidateNames models).filter (fun n => substrB "gemini-2.5-flash" n),
        (candidateNames models).filter (fun n => substrB "flash" n),
        (candidateNames models).filter (fun n => substrB "pro" n),
        candidateNames models with
  | n :: _, _, _, _ => n
  | [], n :: _, _, _ => n
  | [], [], n :: _, _ => n
  | [], [], [], n :: _ => n
  | [], [], [], [] => PREFERRED_MODEL

/-- Outcome of the fetch/decode part of `discover_model`: either the decoded
descriptor list, or the message of the exception raised anywhere inside the
`try` block (connection error, `raise_for_status`, JSON decode, shape errors). -/
inductive FetchOutcome where
  | success (models : List ModelDescriptor)
  | failure (exc : String)

/-- The diagnostic printed on the `except` path of `discover_model`. -/
def discoveryWarning (exc : String) : String :=
  "Warning: model discovery failed, defaulting to " ++ PREFERRED_MODEL ++
    ". Error: " ++ exc

/-- `discover_model`, selection result only. -/
def discover_model : FetchOutcome → String
  | FetchOutcome.success models => discover_model_success models
  | FetchOutcome.failure _ => PREFERRED_MODEL

/-- `discover_model` together with the lines it prints: the warning is
printed only on the `except` path. -/
def discover_model_full : FetchOutcome → String × List String
  | FetchOutcome.success models => (discover_model_success models, [])
  | FetchOutcome.failure exc => (PREFERRED_MODEL, [discoveryWarning exc])

/-! ### The `main` control flow -/

/-- The environment variables `main` reads; `none` means unset. -/
structure Env where
  GEMINI_API_KEY : Option String
  ISSUE_TITLE : Option String
  ISSUE_BODY : Option String
  REPO_FULL_NAME : Option String
  ISSUE_NUMBER : Option String
  GITHUB_TOKEN : Option String

/-- Python truthiness test used by `if not api_key or not gh_token`:
unset or empty is falsy. -/
def falsy : Option String → Bool
  | none => true
  | some s => s.isEmpty

/-- Outcome of `response.json()` followed by the indexing
`result["candidates"][0]["content"]["parts"][0]["text"]`:
`notJson` models `response.json()` itself raising (uncaught),
`parsed none` models a decoded body where the indexing raises
`KeyError`/`IndexError`/`TypeError` (caught), and `parsed (some t)` the
happy path extracting text `t`. -/
inductive BodyParse where
  | notJson (exc : String)
  | parsed (text : Option String)

/-- The generation response: HTTP status, raw text (printed on non-200),
and what parsing its body yields. -/
structure GenResponse where
  status : Nat
  text : String
  body : BodyParse

/-- The three outbound HTTP calls the script can make, in order. -/
inductive NetCall where
  | listModels
  | generate
  | comment

/-- How a run of `main` ends: `sys.exit(code)`, an uncaught exception,
or a normal return (process exit 0). -/
inductive MainResult where
  | exitCode (code : Nat)
  | unhandled (exc : String)
  | success

/-- Everything external that determines a run of `main`: the environment,
the model-list fetch outcome, the generation call (exception or response),
and the comment-posting call (exception from `requests.post` or
`raise_for_status`, or success). -/
structure World where
  env : Env
  discovery : FetchOutcome
  genCall : Except String GenResponse
  ghCall : Except String Unit

/-- `main`, returning how the run ends, the stdout lines, and the network
calls attempted, in order. -/
def runMain (w : World) : MainResult × List String × List NetCall :=
  if falsy w.env.GEMINI_API_KEY || falsy w.env.GITHUB_TOKEN then
    (MainResult.exitCode 1, ["Missing GEMINI_API_KEY or GITHUB_TOKEN"], [])
  else
    let disc := discover_model_full w.discovery
    let logs := disc.2 ++
      ["Sending request to Gemini with model: " ++ disc.1 ++ " ..."]
    match w.genCall with
    | Except.error exc =>
        (MainResult.unhandled exc, logs, [NetCall.listModels, NetCall.generate])
    | Except.ok resp =>
        if resp.status ≠ 200 then
          (MainResult.exitCode 1, logs ++ ["Error: " ++ resp.text],
            [NetCall.listModels, NetCall.generate])
        else
          match resp.body with
          | BodyParse.notJson exc =>
              (MainResult.unhandled exc, logs,
                [NetCall.listModels, NetCall.generate])
          | BodyParse.parsed none =>
              (MainResult.exitCode 1, logs ++ ["Error parsing Gemini response"],
                [NetCall.listModels, NetCall.generate])
          | BodyParse.parsed (some _) =>
              let logs2 := logs ++ ["Posting to GitHub..."]
              match w.ghCall with
              | Except.error exc =>
                  (MainResult.unhandled exc, logs2,
                    [NetCall.listModels, NetCall.generate, NetCall.comment])
              | Except.ok _ =>
                  (MainResult.success, logs2 ++ ["Done!"],
                    [NetCall.listModels, NetCall.generate, NetCall.comment])

/-- A run where every external call succeeds. -/
def happyWorld : World :=
  ⟨⟨some "key", some "title", some "body", some "owner/repo", some "7", some "tok"⟩,
    FetchOutcome.success [],
    Except.ok ⟨200, "", BodyParse.parsed (some "checklist")⟩,
    Except.ok ()⟩

/-- A run where the generation call returns HTTP 500. -/
def errorWorld : World :=
  ⟨⟨some "key", some "title", some "body", some "owner/repo", some "7", some "tok"⟩,
    FetchOutcome.success [],
    Except.ok ⟨500, "boom", BodyParse.parsed none⟩,
    Except.error "post failed"⟩

/-- A run with no environment variables set at all. -/
def emptyEnvWorld : World :=
  ⟨⟨none, none, none, none, none, none⟩, FetchOutcome.failure "net",
    Except.error "net", Except.error "net"⟩

/-! ### Helper lemmas -/

/-- The head of a filtered list is the first element satisfying the predicate. -/
theorem filter_head?_eq_find? {α : Type} (p : α → Bool) (l : List α) :
    (l.filter p).head? = l.find? p := by
  induction l with
  | nil => rfl
  | cons a l ih =>
    cases h : p a <;> simp [List.filter_cons, List.find?_cons, h, ih]

/-- Characterisation of membership in the filtered candidate list. -/
theorem mem_candidateNames {models : List ModelDescriptor} {n : String} :
    n ∈ candidateNames models ↔
      ∃ m ∈ models, m.name = some n ∧ n.isEmpty = false ∧
        supports_generate m = true := by
  unfold candidateNames
  rw [List.mem_filterMap]
  constructor
  · rintro ⟨m, hm, hf⟩
    refine ⟨m, hm, ?_⟩
    cases hname : m.name with
    | none => simp [hname] at hf
    | some s =>
      simp only [hname] at hf
      by_cases hc : (!s.isEmpty && supports_generate m) = true
      · rw [if_pos hc] at hf
        cases hf
        simp only [Bool.and_eq_true, Bool.not_eq_true'] at hc
        exact ⟨rfl, hc.1, hc.2⟩
      · rw [if_neg hc] at hf
        simp at hf
  · rintro ⟨m, hm, hname, hne, hg⟩
    refine ⟨m, hm, ?_⟩
    simp only [hname]
    rw [if_pos (show (!n.isEmpty && supports_generate m) = true by
      simp [hne, hg])]

/-- `supports_generate` holds exactly when some listed method has
`"generateContent"` as a substring. -/
theorem supports_generate_iff (m : ModelDescriptor) :
    supports_generate m = true ↔
      ∃ s ∈ m.supportedGenerationMethods.getD [],
        "generateContent".data <:+: s.data := by
  simp [supports_generate, substrB]

/-- Whatever branch is taken, the selection is the fallback constant or a
member of the candidate list. -/
theorem discover_model_success_cases (models : List ModelDescriptor) :
    discover_model_success models = PREFERRED_MODEL ∨
      discover_model_success models ∈ candidateNames models := by
  unfold discover_model_success
  cases h25 : (candidateNames models).filter (fun n => substrB "gemini-2.5-flash" n) with
  | cons a t =>
    exact Or.inr (List.mem_of_mem_filter
      (by rw [h25]; exact List.mem_cons_self a t))
  | nil =>
    cases hf : (candidateNames models).filter (fun n => substrB "flash" n) with
    | cons a t =>
      exact Or.inr (List.mem_of_mem_filter
        (by rw [hf]; exact List.mem_cons_self a t))
    | nil =>
      cases hp : (candidateNames models).filter (fun n => substrB "pro" n) with
      | cons a t =>
        exact Or.inr (List.mem_of_mem_filter
          (by rw [hp]; exact List.mem_cons_self a t))
      | nil =>
        cases hn : candidateNames models with
        | cons a t => exact Or.inr (List.mem_cons_self a t)
        | nil => exact Or.inl rfl

/-- An infix of a list is an infix of any right extension. -/
theorem infix_append_right {α : Type} {l l₁ : List α} (l₂ : List α)
    (h : l <:+: l₁) : l <:+: l₁ ++ l₂ := by
  rcases h with ⟨s, t, rfl⟩
  exact ⟨s, t ++ l₂, by simp⟩

/-- The right part of an append is an infix of the whole. -/
theorem right_part_infix_append {α : Type} (l₁ l₂ : List α) :
    l₂ <:+: l₁ ++ l₂ := ⟨l₁, [], by simp⟩

/-- A descriptor failing `supports_generate` contributes nothing to the
candidate list. -/
theorem candidate_of_not_generate {m : ModelDescriptor}
    (h : supports_generate m = false) (rest : List ModelDescriptor) :
    candidateNames (m :: rest) = candidateNames rest := by
  have hf : (match m.name with
      | some n => if !n.isEmpty && supports_generate m then some n else none
      | none => (none : Option String)) = none := by
    cases m.name with
    | none => rfl
    | some s => simp [h]
  unfold candidateNames
  simp only [List.filterMap_cons]
  rw [hf]

/-- Unfolding the candidate list over a cons cell. -/
theorem candidateNames_cons (m : ModelDescriptor) (rest : List ModelDescriptor) :
    candidateNames (m :: rest) =
      (match m.name with
        | some n => if !n.isEmpty && supports_generate m then some n else none
        | none => none).toList ++ candidateNames rest := by
  unfold candidateNames
  simp only [List.filterMap_cons]
  cases hf : (match m.name with
    | some n => if !n.isEmpty && supports_generate m then some n else none
    | none => (none : Option String)) <;> simp

/-! ### The claims -/

/-- C1: over a successfully fetched descriptor list, the selection follows
the strict priority order gemini-2.5-flash, flash, pro: the result is the
first candidate name — in original list order, expressed via `List.find?` —
containing the highest-priority substring present among the candidates. -/
theorem discover_model_priority (models : List ModelDescriptor) :
    (∀ n, (candidateNames models).find?
        (fun s => substrB "gemini-2.5-flash" s) = some n →
        discover_model (FetchOutcome.success models) = n) ∧
    ((candidateNames models).find?
        (fun s => substrB "gemini-2.5-flash" s) = none →
      ∀ n, (candidateNames models).find? (fun s => substrB "flash" s) = some n →
        discover_model (FetchOutcome.success models) = n) ∧
    ((candidateNames models).find? (fun s => substrB "flash" s) = none →
      ∀ n, (candidateNames models).find? (fun s => substrB "pro" s) = some n →
        discover_model (FetchOutcome.success models) = n) := by
  refine ⟨?_, ?_, ?_⟩
  · intro n h
    rw [← filter_head?_eq_find?] at h
    show discover_model_success models = n
    unfold discover_model_success
    cases h25 : (candidateNames models).filter
        (fun s => substrB "gemini-2.5-flash" s) with
    | nil => rw [h25] at h; simp at h
    | cons a t => rw [h25] at h; simp at h; exact h
  · intro h25none n h
    rw [← filter_head?_eq_find?] at h25none h
    rw [List.head?_eq_none_iff] at h25none
    show discover_model_success models = n
    unfold discover_model_success
    rw [h25none]
    cases hf : (candidateNames models).filter (fun s => substrB "flash" s) with
    | nil => rw [hf] at h; simp at h
    | cons a t => rw [hf] at h; simp at h; exact h
  · intro hfnone n h
    rw [← filter_head?_eq_find?] at hfnone h
    rw [List.head?_eq_none_iff] at hfnone
    have hfall : ∀ s ∈ candidateNames models, ¬ substrB "flash" s = true :=
      List.filter_eq_nil_iff.mp hfnone
    have h25 : (candidateNames models).filter
        (fun s => substrB "gemini-2.5-flash" s) = [] := by
      rw [List.filter_eq_nil_iff]
      intro s hs h25s
      exact hfall s hs (decide_eq_true
        ((show ("flash".data <:+: "gemini-2.5-flash".data) by decide).trans
          (of_decide_eq_true h25s)))
    show discover_model_success models = n
    unfold discover_model_success
    rw [h25, hfnone]
    cases hp : (candidateNames models).filter (fun s => substrB "pro" s) with
    | nil => rw [hp] at h; simp at h
    | cons a t => rw [hp] at h; simp at h; exact h

/-- Witness for C1 at the spec's two scenarios: a 2.5-flash name beats an
earlier pro name, and with only generic flash and pro names the first flash
name wins. -/
theorem discover_model_priority_witness :
    discover_model (FetchOutcome.success
      [⟨some "models/gemini-1.0-pro", some ["generateContent"]⟩,
       ⟨some "models/gemini-2.5-flash-001", some ["generateContent"]⟩]) =
        "models/gemini-2.5-flash-001" ∧
    discover_model (FetchOutcome.success
      [⟨some "models/gemini-pro", some ["generateContent"]⟩,
       ⟨some "models/gemini-flash", some ["generateContent"]⟩]) =
        "models/gemini-flash" :=
  ⟨(discover_model_priority _).1 "models/gemini-2.5-flash-001" (by decide),
   (discover_model_priority _).2.1 (by decide) "models/gemini-flash" (by decide)⟩

/-- C2 is refuted as stated: on a successful fetch of the empty descriptor
list the selector does return the fallback, but prints nothing — the
diagnostic exists only on the exception path of the source. -/
theorem discover_model_empty_silent :
    (discover_model_full (FetchOutcome.success [])).1 = PREFERRED_MODEL ∧
    (discover_model_full (FetchOutcome.success [])).2 = [] :=
  ⟨rfl, rfl⟩

/-- C2 (amended): with an empty filtered candidate set the selector returns
the fallback silently; when the fetch fails it returns the fallback and
emits one diagnostic, which contains both the fallback identifier and the
failure cause as substrings. -/
theorem discover_model_fallback (o : FetchOutcome) :
    (∀ models, o = FetchOutcome.success models → candidateNames models = [] →
        discover_model_full o = (PREFERRED_MODEL, [])) ∧
    (∀ exc, o = FetchOutcome.failure exc →
        discover_model_full o = (PREFERRED_MODEL, [discoveryWarning exc]) ∧
        PREFERRED_MODEL.data <:+: (discoveryWarning exc).data ∧
        exc.data <:+: (discoveryWarning exc).data) := by
  constructor
  · rintro models rfl hempty
    show (discover_model_success models, []) = (PREFERRED_MODEL, [])
    unfold discover_model_success
    rw [hempty]
    rfl
  · rintro exc rfl
    refine ⟨rfl, ?_, ?_⟩
    · unfold discoveryWarning
      simp only [String.data_append]
      exact infix_append_right _ (by decide)
    · unfold discoveryWarning
      simp only [String.data_append]
      exact right_part_infix_append _ _

/-- Witness for C2 (amended): a list whose only descriptor has no
generation methods yields a silent fallback; a failed fetch yields the
fallback plus the warning line. -/
theorem discover_model_fallback_witness :
    discover_model_full (FetchOutcome.success
      [⟨some "models/embedding-001", none⟩]) = (PREFERRED_MODEL, []) ∧
    discover_model_full (FetchOutcome.failure "timeout") =
      (PREFERRED_MODEL, [discoveryWarning "timeout"]) :=
  ⟨(discover_model_fallback _).1 _ rfl (by decide),
   ((discover_model_fallback _).2 "timeout" rfl).1⟩

/-- C3: every exception raised during fetch or parse is a failure outcome of
the try block, on which `discover_model` returns the fallback; the selector
is a total function of the outcome, so nothing propagates to the caller. -/
theorem discover_model_catches_all (exc : String) :
    discover_model (FetchOutcome.failure exc) = PREFERRED_MODEL ∧
    discover_model_full (FetchOutcome.failure exc) =
      (PREFERRED_MODEL, [discoveryWarning exc]) :=
  ⟨rfl, rfl⟩

/-- C4: a name is a selection candidate iff some fetched descriptor carries
it, it is non-empty, and some entry of that descriptor's generation methods
contains "generateContent" as a substring; consequently descriptors lacking
generateContent support can be dropped without changing the candidate list
(they are never selected). -/
theorem candidate_iff (models : List ModelDescriptor) (n : String) :
    (n ∈ candidateNames models ↔
      ∃ m ∈ models, m.name = some n ∧ n.isEmpty = false ∧
        ∃ s ∈ m.supportedGenerationMethods.getD [],
          "generateContent".data <:+: s.data) ∧
    candidateNames models =
      candidateNames (models.filter (fun m => supports_generate m)) := by
  constructor
  · rw [mem_candidateNames]
    exact exists_congr fun m => and_congr_right fun _ =>
      and_congr_right fun _ => and_congr_right fun _ => supports_generate_iff m
  · induction models with
    | nil => rfl
    | cons m rest ih =>
      simp only [List.filter_cons]
      by_cases hg : supports_generate m = true
      · rw [if_pos (by exact hg)]
        rw [candidateNames_cons, candidateNames_cons, ih]
      · have hg0 : supports_generate m = false := by
          cases hsg : supports_generate m
          · rfl
          · exact absurd hsg hg
        rw [if_neg (by simp [hg0])]
        rw [candidate_of_not_generate hg0, ih]

/-- C5: whatever the fetch outcome, the selected model name is non-empty. -/
theorem discover_model_nonempty (o : FetchOutcome) :
    (discover_model o).isEmpty = false := by
  cases o with
  | failure exc => rfl
  | success models =>
    rcases discover_model_success_cases models with h | h
    · show (discover_model_success models).isEmpty = false
      rw [h]
      rfl
    · rcases mem_candidateNames.mp h with ⟨m, _, _, hne, _⟩
      exact hne

/-- C6: when the candidate set is non-empty but no candidate name contains
"gemini-2.5-flash", "flash" or "pro", the first filtered name is returned. -/
theorem discover_model_first_filtered (models : List ModelDescriptor)
    (h : ∀ s ∈ candidateNames models,
        substrB "gemini-2.5-flash" s = false ∧ substrB "flash" s = false ∧
          substrB "pro" s = false)
    (n : String) (t : List String) (hn : candidateNames models = n :: t) :
    discover_model (FetchOutcome.success models) = n := by
  have h25 : (candidateNames models).filter
      (fun s => substrB "gemini-2.5-flash" s) = [] :=
    List.filter_eq_nil_iff.mpr fun s hs => by simp [(h s hs).1]
  have hf : (candidateNames models).filter (fun s => substrB "flash" s) = [] :=
    List.filter_eq_nil_iff.mpr fun s hs => by simp [(h s hs).2.1]
  have hp : (candidateNames models).filter (fun s => substrB "pro" s) = [] :=
    List.filter_eq_nil_iff.mpr fun s hs => by simp [(h s hs).2.2]
  show discover_model_success models = n
  unfold discover_model_success
  rw [h25, hf, hp, hn]

/-- Witness for C6: one generation-capable descriptor whose name mentions
none of the three keywords is selected as the first filtered name. -/
theorem discover_model_first_filtered_witness :
    discover_model (FetchOutcome.success
      [⟨some "models/aqa", some ["generateContent"]⟩]) = "models/aqa" :=
  discover_model_first_filtered _ (by decide) "models/aqa" [] (by decide)

/-- C7: with the API key or the GitHub token unset, main stops at once with
exit code 1 and the diagnostic line, before any network call is attempted. -/
theorem main_missing_credentials (w : World)
    (h : w.env.GEMINI_API_KEY = none ∨ w.env.GITHUB_TOKEN = none) :
    runMain w =
      (MainResult.exitCode 1, ["Missing GEMINI_API_KEY or GITHUB_TOKEN"], []) := by
  rcases h with h | h <;> simp [runMain, falsy, h]

/-- Witness for C7: a run with an entirely empty environment. -/
theorem main_missing_credentials_witness :
    runMain emptyEnvWorld =
      (MainResult.exitCode 1, ["Missing GEMINI_API_KEY or GITHUB_TOKEN"], []) :=
  main_missing_credentials emptyEnvWorld (Or.inl rfl)

/-- C8: main returns normally (exit 0) when all calls succeed; it exits 1
when credentials are missing, the generation call returns a non-200 status,
or the decoded generation body lacks the expected text field; a failure of
the comment-posting call is an uncaught exception. -/
theorem main_exit_codes (w : World) :
    (falsy w.env.GEMINI_API_KEY = true ∨ falsy w.env.GITHUB_TOKEN = true →
        (runMain w).1 = MainResult.exitCode 1) ∧
    (falsy w.env.GEMINI_API_KEY = false → falsy w.env.GITHUB_TOKEN = false →
      (∀ resp, w.genCall = Except.ok resp → resp.status ≠ 200 →
          (runMain w).1 = MainResult.exitCode 1) ∧
      (∀ resp, w.genCall = Except.ok resp → resp.status = 200 →
          resp.body = BodyParse.parsed none →
          (runMain w).1 = MainResult.exitCode 1) ∧
      (∀ resp t, w.genCall = Except.ok resp → resp.status = 200 →
          resp.body = BodyParse.parsed (some t) → w.ghCall = Except.ok () →
          (runMain w).1 = MainResult.success) ∧
      (∀ resp t exc, w.genCall = Except.ok resp → resp.status = 200 →
          resp.body = BodyParse.parsed (some t) → w.ghCall = Except.error exc →
          (runMain w).1 = MainResult.unhandled exc)) := by
  constructor
  · rintro (h | h) <;> simp [runMain, h]
  · intro hk ht
    refine ⟨?_, ?_, ?_, ?_⟩
    · intro resp hgen hst
      simp [runMain, hk, ht, hgen, hst]
    · intro resp hgen hst hbody
      simp [runMain, hk, ht, hgen, hst, hbody]
    · intro resp t hgen hst hbody hgh
      simp [runMain, hk, ht, hgen, hst, hbody, hgh]
    · intro resp t exc hgen hst hbody hgh
      simp [runMain, hk, ht, hgen, hst, hbody, hgh]

/-- Witness for C8: a fully successful run returns normally, and a run whose
generation call answers HTTP 500 exits with code 1. -/
theorem main_exit_codes_witness :
    (runMain happyWorld).1 = MainResult.success ∧
    (runMain errorWorld).1 = MainResult.exitCode 1 :=
  ⟨((main_exit_codes happyWorld).2 rfl rfl).2.2.1
      ⟨200, "", BodyParse.parsed (some "checklist")⟩ "checklist" rfl rfl rfl rfl,
   ((main_exit_codes errorWorld).2 rfl rfl).1
      ⟨500, "boom", BodyParse.parsed none⟩ rfl (by decide)⟩

/-- C9: the selection never fabricates a name: it is the hardcoded fallback
constant or a member of the candidate list, hence the name of some fetched
descriptor that supports generateContent. -/
theorem discover_model_conservative (o : FetchOutcome) :
    discover_model o = PREFERRED_MODEL ∨
      ∃ models, o = FetchOutcome.success models ∧
        discover_model o ∈ candidateNames models ∧
        ∃ m ∈ models, m.name = some (discover_model o) ∧
          supports_generate m = true := by
  cases o with
  | failure exc => exact Or.inl rfl
  | success models =>
    rcases discover_model_success_cases models with h | h
    · exact Or.inl h
    · refine Or.inr ⟨models, rfl, h, ?_⟩
      rcases mem_candidateNames.mp h with ⟨m, hm, hname, _, hsg⟩
      exact ⟨m, hm, hname, hsg⟩

/-- C10: a descriptor whose supportedGenerationMethods field is absent or
null fails the candidacy test (the embedding of `or []` treats it as the
empty method list, so nothing is raised), contributes nothing to the
candidate list, and leaves the selection unchanged. -/
theorem supports_generate_none_field (nm : Option String)
    (rest : List ModelDescriptor) :
    supports_generate ⟨nm, none⟩ = false ∧
    candidateNames (⟨nm, none⟩ :: rest) = candidateNames rest ∧
    discover_model (FetchOutcome.success (⟨nm, none⟩ :: rest)) =
      discover_model (FetchOutcome.success rest) := by
  have hsg : supports_generate (⟨nm, none⟩ : ModelDescriptor) = false := rfl
  have hc : candidateNames (⟨nm, none⟩ :: rest) = candidateNames rest :=
    candidate_of_not_generate hsg rest
  refine ⟨hsg, hc, ?_⟩
  show discover_model_success (⟨nm, none⟩ :: rest) = discover_model_success rest
  unfold discover_model_success
  rw [hc]

end GeminiTriage
